import Mathlib

/-!
Verification development for the GTM notification system
(`backend/rate_limiter.py` and `backend/notifications.py`).

The Python code is shallowly embedded: timestamps (`datetime`) become `Int`
seconds, collaborator calls (Supabase auth/table/storage, Resend) become
explicit environment records whose fields carry the outcome of each external
call, and a Python exception propagating out of a function is an
`Except.error`.  Presentation-only material (HTML bodies, base64 text of an
attachment, log lines) is not modelled beyond the decisions it forces.
-/

namespace GTM

/-! ## Rate limiter (`backend/rate_limiter.py`)

`RateLimiter` keeps, per user key, a list of call timestamps.  The embedding
carries the per-key list explicitly; `check_rate_limit`, `get_remaining`
return the updated list alongside their result, mirroring the assignment
`self._calls[user_id] = [...]` in the Python code.  The constructor defaults
are `max_calls = 10`, `window_seconds = 60`.
-/

/-- `[call_time for call_time in calls if call_time > now - window]` -/
def prune (window now : Int) (calls : List Int) : List Int :=
  calls.filter (fun t => now - window < t)

/-- Outcome of `RateLimiter.check_rate_limit`: the Python method returns
`True`, raises `RateLimitExceeded` (whose message carries the computed
`retry_after` seconds), or hits an `IndexError` on `calls[0]` when the
pruned list is empty yet `max_calls <= 0`. -/
inductive RLResult
  | admitted
  | rejected (retry_after : Int)
  | indexError
deriving DecidableEq, Repr

/-- `RateLimiter.check_rate_limit` for one key: prune entries outside the
window; if the pruned count reaches `max_calls`, raise `RateLimitExceeded`
with `retry_after = oldest + window - now`; otherwise append `now` and
admit. -/
def check_rate_limit (max_calls : Nat) (window now : Int) (calls : List Int) :
    RLResult × List Int :=
  let pruned := prune window now calls
  if max_calls ≤ pruned.length then
    match pruned.head? with
    | some oldest => (.rejected (oldest + window - now), pruned)
    | none => (.indexError, pruned)
  else
    (.admitted, pruned ++ [now])

/-- `RateLimiter.get_remaining`: prunes, then returns
`max(0, max_calls - len(calls))` together with the pruned list it stored. -/
def get_remaining (max_calls : Nat) (window now : Int) (calls : List Int) :
    Int × List Int :=
  let pruned := prune window now calls
  (max 0 ((max_calls : Int) - pruned.length), pruned)

/-- `RateLimiter.reset`: `if user_id in self._calls: del self._calls[user_id]`.
The map of per-key lists is an association list. -/
def reset (m : List (String × List Int)) (user_id : String) :
    List (String × List Int) :=
  m.filter (fun kv => kv.1 ≠ user_id)

/-- `RateLimiter.cleanup`: prune every key, then drop keys whose list became
empty. -/
def cleanup (window now : Int) (m : List (String × List Int)) :
    List (String × List Int) :=
  (m.map (fun kv => (kv.1, prune window now kv.2))).filter
    (fun kv => ¬ kv.2.isEmpty)

/-- Default configuration of the module-level
`notification_rate_limiter = RateLimiter(max_calls=10, window_seconds=60)`. -/
def notification_rate_limiter_max_calls : Nat := 10

/-- Window of the module-level limiter instance, in seconds. -/
def notification_rate_limiter_window : Int := 60

/-! ## Notification system (`backend/notifications.py`)

External collaborators become environment records.  A field of type
`Except String α` stands for a Python call that either returns a value or
raises (the string is `str(e)`). -/

/-- `NotificationType` enumeration. -/
inductive NotificationType
  | job_complete
  | job_failed
  | quota_warning
  | quota_exceeded
  | welcome
  | verify
deriving DecidableEq, Repr

/-- The `.value` of each enum member. -/
def NotificationType.value : NotificationType → String
  | .job_complete => "job_complete"
  | .job_failed => "job_failed"
  | .quota_warning => "quota_warning"
  | .quota_exceeded => "quota_exceeded"
  | .welcome => "welcome"
  | .verify => "verify"

/-- The slice of a Supabase auth user that `_check_user_preferences` reads:
`user.email` (`None` or possibly the empty string) and
`user.email_confirmed_at` (a timestamp when verified, `None` otherwise). -/
structure DirUser where
  email : Option String
  email_confirmed_at : Option Int
deriving DecidableEq, Repr

/-- Environment for `_check_user_preferences`.  `userFetch` is the outcome of
`supabase.auth.admin.get_user_by_id` followed by `.user` (`ok none` = user
object missing); `prefsFetch` is the outcome of the
`notification_preferences` query (`ok none` = falsy `.data`, i.e. no record;
the record itself is the dict, an association list of preference flags). -/
structure GateEnv where
  userFetch : Except String (Option DirUser)
  prefsFetch : Except String (Option (List (String × Bool)))

/-- `NotificationSystem._check_user_preferences`.  Returns
`(should_send, user_email)`. -/
def check_user_preferences (env : GateEnv) (nt : NotificationType) :
    Bool × Option String :=
  match env.userFetch with
  | .error _ => (false, none)
  | .ok none => (false, none)
  | .ok (some user) =>
    match user.email with
    | none => (false, none)
    | some addr =>
      if addr = "" then (false, none)
      else if (nt ≠ .welcome ∧ nt ≠ .verify) ∧ user.email_confirmed_at = none
        then (false, none)
      else
        match env.prefsFetch with
        | .error _ => (false, none)
        | .ok none => (true, some addr)
        | .ok (some prefs) =>
          if (prefs.lookup ("email_" ++ nt.value)).getD true then (true, some addr)
          else (false, none)

/-! ### Storage upload (`_upload_to_storage`) -/

/-- Blob-store collaborator: `upload path bytes` is the storage upload,
`createSignedUrl path expires_in` the signed-URL request (`.error` covers
both a raised exception and a response without a `signedURL` key, which the
method re-raises). -/
structure BlobEnv where
  upload : String → List Nat → Except String Unit
  createSignedUrl : String → Nat → Except String String

/-- `storage_path = f"USER/results/JOB.csv"` (braces elided). -/
def storage_path (user_id job_id : String) : String :=
  user_id ++ "/results/" ++ job_id ++ ".csv"

/-- Signed-URL expiry passed by `_upload_to_storage`: 7 days in seconds. -/
def signed_url_expires_in : Nat := 604800

/-- `NotificationSystem._upload_to_storage`: upload then sign; any failure is
logged and re-raised (`Except.error`). -/
def upload_to_storage (blob : BlobEnv) (user_id job_id : String)
    (csv_data : List Nat) : Except String String :=
  match blob.upload (storage_path user_id job_id) csv_data with
  | .error e => .error e
  | .ok _ =>
    match blob.createSignedUrl (storage_path user_id job_id) signed_url_expires_in with
    | .error e => .error e
    | .ok url => .ok url

/-! ### Retrying transport (`_send_email_with_retry`) -/

/-- Result of one `resend.Emails.send` call. -/
inductive TransportRes
  | ok (email_id : String)
  | err (msg : String)
deriving DecidableEq, Repr

/-- A row appended to `notification_logs`: only the fields the claims are
about (the status and its varying payload). -/
inductive AuditWrite
  | sent (email_id : String)
  | failed (error : String)
deriving DecidableEq, Repr

/-- Environment for `_send_email_with_retry`: per-attempt transport outcome,
per-attempt outcome of the `status='sent'` log insert, and the outcome of
the single `status='failed'` insert on exhaustion. -/
structure SendEnv where
  transport : Nat → TransportRes
  auditSent : Nat → Except String Unit
  auditFailed : Except String Unit

/-- The Python result dict, with absent keys as `none`
(`success`/`email_id`/`error` come from `_send_email_with_retry`;
`reason` only from the preference-rejection dict of the dispatch methods). -/
structure SendResult where
  success : Bool
  email_id : Option String := none
  error : Option String := none
  reason : Option String := none
deriving DecidableEq, Repr

/-- Observable outcome of `_send_email_with_retry`: the returned dict (or the
exception escaping it), how many times the transport ran, the
`asyncio.sleep` durations, and the successful audit inserts. -/
structure SendOutcome where
  result : Except String SendResult
  transportCalls : Nat
  backoffs : List Nat
  auditWrites : List AuditWrite
deriving Repr

/-- Body of the `for attempt in range(max_retries)` loop, over the list of
remaining attempt indices.  On each attempt: `resend.Emails.send`, then the
`sent` log insert, both inside one `try`; the handler sleeps
`5 * (attempt + 1)` and continues when `attempt < max_retries - 1`, else
performs the `failed` log insert (unprotected — its exception escapes) and
returns the failure dict.  An empty list is the loop falling through to
`return ⟨success false, error "Unknown error"⟩`. -/
def sendGo (env : SendEnv) (max_retries : Nat) : List Nat → SendOutcome
  | [] => ⟨.ok ⟨false, none, some "Unknown error", none⟩, 0, [], []⟩
  | attempt :: rest =>
    match env.transport attempt with
    | .ok id =>
      match env.auditSent attempt with
      | .ok _ => ⟨.ok ⟨true, some id, none, none⟩, 1, [], [.sent id]⟩
      | .error e =>
        if attempt < max_retries - 1 then
          let r := sendGo env max_retries rest
          ⟨r.result, r.transportCalls + 1, 5 * (attempt + 1) :: r.backoffs,
            r.auditWrites⟩
        else
          match env.auditFailed with
          | .ok _ => ⟨.ok ⟨false, none, some e, none⟩, 1, [], [.failed e]⟩
          | .error e2 => ⟨.error e2, 1, [], []⟩
    | .err e =>
      if attempt < max_retries - 1 then
        let r := sendGo env max_retries rest
        ⟨r.result, r.transportCalls + 1, 5 * (attempt + 1) :: r.backoffs,
          r.auditWrites⟩
      else
        match env.auditFailed with
        | .ok _ => ⟨.ok ⟨false, none, some e, none⟩, 1, [], [.failed e]⟩
        | .error e2 => ⟨.error e2, 1, [], []⟩

/-- `NotificationSystem._send_email_with_retry`. -/
def send_email_with_retry (env : SendEnv) (max_retries : Nat) : SendOutcome :=
  sendGo env max_retries (List.range max_retries)

/-! ### Dispatch methods (`send_job_complete`, `send_job_failed`,
`send_quota_warning`) -/

/-- `self.attachment_threshold_bytes = attachment_size_threshold_mb * 1_000_000`
(constructor default `attachment_size_threshold_mb = 2`). -/
def attachment_threshold_bytes (attachment_size_threshold_mb : Nat) : Nat :=
  attachment_size_threshold_mb * 1000000

/-- How the CSV is delivered: no `csv_data`, a direct attachment
(`results_JOB.csv`, base64 text of the bytes elided), a storage link, or the
degraded case after a storage failure. -/
inductive RoutedPayload
  | noAttachment
  | inline (filename : String) (size : Nat)
  | externalRef (url : String)
  | degraded
deriving DecidableEq, Repr

/-- Which `download_section` HTML fragment `send_job_complete` builds:
empty, "See attached CSV file.", the download-link block for a signed URL,
or "Error generating download link. Please check the app.". -/
inductive DownloadSection
  | empty
  | attached
  | link (url : String)
  | unavailable
deriving DecidableEq, Repr

/-- The `results` dict of `send_job_complete`.  Fields are optional because
the dict may lack a key; the HTML/subject f-strings index
`results['total_rows']`, `results['successful']`, `results['failed']`,
`results['processing_time_seconds']` and raise `KeyError` on a missing one.
`processing_time_seconds` (a float) is modelled as an integer — only its
presence matters. -/
structure JobResults where
  total_rows : Option Int
  successful : Option Int
  failed : Option Int
  processing_time_seconds : Option Int
deriving DecidableEq, Repr

/-- Caller-visible outcome of one dispatch method: the returned dict, the
payload routing and download section chosen, and the transport / backoff /
audit activity of the underlying retry send. -/
structure DispatchOutcome where
  result : SendResult
  routed : RoutedPayload
  downloadSection : DownloadSection
  transportCalls : Nat
  backoffs : List Nat
  auditWrites : List AuditWrite
deriving Repr

/-- The dict returned on `should_send == False`. -/
def preferenceRejected : DispatchOutcome :=
  ⟨⟨false, none, none, some "user_preferences_or_unverified_email"⟩,
    .noAttachment, .empty, 0, [], []⟩

/-- The `if csv_data:` block of `send_job_complete`: below the threshold the
bytes are attached as `results_JOB.csv`; otherwise `_upload_to_storage`
runs, a failure being caught and degraded to the fallback section. -/
def route_csv (blob : BlobEnv) (threshold : Nat) (user_id job_id : String) :
    Option (List Nat) → RoutedPayload × DownloadSection
  | none => (.noAttachment, .empty)
  | some csv_data =>
    if csv_data.length < threshold then
      (.inline ("results_" ++ job_id ++ ".csv") csv_data.length, .attached)
    else
      match upload_to_storage blob user_id job_id csv_data with
      | .ok url => (.externalRef url, .link url)
      | .error _ => (.degraded, .unavailable)

/-- Lift a `SendOutcome` into the dispatch result, propagating an escaped
exception. -/
def finishSend (routing : RoutedPayload × DownloadSection) (s : SendOutcome) :
    Except String DispatchOutcome :=
  match s.result with
  | .ok r => .ok ⟨r, routing.1, routing.2, s.transportCalls, s.backoffs, s.auditWrites⟩
  | .error e => .error e

/-- `NotificationSystem.send_job_complete`: preference gate, CSV routing,
HTML/subject construction (which indexes the four `results` keys — a missing
one raises `KeyError`), then the retrying send. -/
def send_job_complete (gate : GateEnv) (blob : BlobEnv) (senv : SendEnv)
    (max_retries threshold : Nat) (user_id job_id : String)
    (results : JobResults) (csv_data : Option (List Nat)) :
    Except String DispatchOutcome :=
  let pref := check_user_preferences gate .job_complete
  if pref.1 then
    let routing := route_csv blob threshold user_id job_id csv_data
    match results.total_rows, results.successful, results.failed,
        results.processing_time_seconds with
    | some _, some _, some _, some _ =>
      finishSend routing (send_email_with_retry senv max_retries)
    | _, _, _, _ => .error "KeyError"
  else
    .ok preferenceRejected

/-- `NotificationSystem.send_job_failed`: preference gate then the retrying
send (no attachment handling). -/
def send_job_failed (gate : GateEnv) (senv : SendEnv) (max_retries : Nat)
    (user_id job_id error_message : String) : Except String DispatchOutcome :=
  let pref := check_user_preferences gate .job_failed
  if pref.1 then
    finishSend (.noAttachment, .empty) (send_email_with_retry senv max_retries)
  else
    .ok preferenceRejected

/-- `NotificationSystem.send_quota_warning`: preference gate, then
`percent = (current_usage / limit) * 100` — a true division that raises
`ZeroDivisionError` when `limit == 0` — then the retrying send.  The numeric
values feed only the HTML/subject text. -/
def send_quota_warning (gate : GateEnv) (senv : SendEnv) (max_retries : Nat)
    (user_id : String) (current_usage limit : Int) :
    Except String DispatchOutcome :=
  let pref := check_user_preferences gate .quota_warning
  if pref.1 then
    if limit = 0 then .error "ZeroDivisionError: division by zero"
    else finishSend (.noAttachment, .empty) (send_email_with_retry senv max_retries)
  else
    .ok preferenceRejected

/-! ### Reference decision of the Preference Gate

A second definition, written from the specification's description of the
gate rather than from the Python control flow, to be compared with
`check_user_preferences`. -/

/-- The spec's reference decision: user missing or contact absent/empty →
reject; non-onboarding kind with unverified contact → reject; an existing
record whose key for this kind is explicitly `false` → reject; otherwise
allow with the non-empty contact (absent record or absent key default to
opt-in); any directory or preference-store fetch failure → reject. -/
def gateSpecDecision (env : GateEnv) (nt : NotificationType) :
    Bool × Option String :=
  match env.userFetch with
  | .error _ => (false, none)
  | .ok none => (false, none)
  | .ok (some user) =>
    let contact := user.email.getD ""
    if contact = "" then (false, none)
    else if ¬ (nt = .welcome ∨ nt = .verify) ∧ user.email_confirmed_at = none then
      (false, none)
    else
      match env.prefsFetch with
      | .error _ => (false, none)
      | .ok none => (true, some contact)
      | .ok (some prefs) =>
        if prefs.lookup ("email_" ++ nt.value) = some false then (false, none)
        else (true, some contact)

/-! ### Concrete environments used in closed evaluations -/

/-- A verified user with an address and no preference record. -/
def gate_ok : GateEnv :=
  ⟨.ok (some ⟨some "user@example.com", some 100⟩), .ok none⟩

/-- The user lookup finds nobody. -/
def gate_absent : GateEnv := ⟨.ok none, .ok none⟩

/-- A verified user with an address whose preference record disables only
`email_job_failed` (every other key defaults to opt-in). -/
def gate_optout_job_failed : GateEnv :=
  ⟨.ok (some ⟨some "user@example.com", some 100⟩),
    .ok (some [("email_job_failed", false)])⟩

/-- Transport and both audit inserts succeed on every attempt. -/
def senv_ok : SendEnv := ⟨fun _ => .ok "email_abc123", fun _ => .ok (), .ok ()⟩

/-- Transport succeeds on every attempt, but every insert into
`notification_logs` raises. -/
def senv_auditDown : SendEnv :=
  ⟨fun _ => .ok "email_abc123", fun _ => .error "db down", .error "db down"⟩

/-- Transport succeeds on every attempt; the `sent` insert always raises but
the final `failed` insert succeeds. -/
def senv_auditSentDown : SendEnv :=
  ⟨fun _ => .ok "email_abc123", fun _ => .error "db down", .ok ()⟩

/-- Transport fails twice, then succeeds; audit inserts succeed. -/
def senv_twoFailures : SendEnv :=
  ⟨fun n => if n < 2 then .err ("boom" ++ toString n) else .ok "email_abc123",
    fun _ => .ok (), .ok ()⟩

/-- Transport fails on every attempt; audit inserts succeed. -/
def senv_allFail : SendEnv :=
  ⟨fun n => .err ("boom" ++ toString n), fun _ => .ok (), .ok ()⟩

/-- Storage upload and signing succeed. -/
def blob_ok : BlobEnv :=
  ⟨fun _ _ => .ok (), fun _ _ => .ok "https://signed.example/url"⟩

/-- Storage upload raises. -/
def blob_down : BlobEnv :=
  ⟨fun _ _ => .error "storage down", fun _ _ => .error "storage down"⟩

/-- A complete `results` dict. -/
def results_full : JobResults := ⟨some 100, some 98, some 2, some 15⟩

/-! ## Theorems -/

/-- C6: the Preference Gate evaluation `_check_user_preferences` equals the
reference decision: missing user or missing/empty contact rejects; a
non-onboarding kind with an unverified contact rejects; an existing record
whose key for this kind is explicitly false rejects; otherwise allowed with
the non-empty contact (absent record or key defaults to opt-in); any fetch
failure rejects. -/
theorem gate_matches_reference_decision (env : GateEnv) (nt : NotificationType) :
    check_user_preferences env nt = gateSpecDecision env nt := by
  rcases env with ⟨uf, pf⟩
  rcases uf with e | ou
  · rfl
  rcases ou with _ | ⟨em, conf⟩
  · rfl
  rcases em with _ | addr
  · rfl
  rcases pf with e | op
  · simp [check_user_preferences, gateSpecDecision]
  rcases op with _ | prefs
  · simp [check_user_preferences, gateSpecDecision, not_or]
  · cases hl : prefs.lookup ("email_" ++ nt.value) with
    | none => simp [check_user_preferences, gateSpecDecision, not_or, hl]
    | some b =>
      cases b <;> simp [check_user_preferences, gateSpecDecision, not_or, hl]

/-- C5: sliding-window correctness of `check_rate_limit`.  With the per-key
list holding exactly `max_calls` entries: a call while every entry is still
inside the window is rejected with `retry_after = oldest + window - now > 0`
(the time until the oldest surviving entry exits the window); a call once
`window` has elapsed since the oldest entry is admitted and appends `now` to
the pruned list. -/
theorem rate_limit_window_correct (max_calls : Nat) (window now oldest : Int)
    (rest : List Int) (hlen : (oldest :: rest).length = max_calls) :
    ((∀ t ∈ oldest :: rest, now - window < t) →
      (check_rate_limit max_calls window now (oldest :: rest)).1
          = .rejected (oldest + window - now)
        ∧ 0 < oldest + window - now)
    ∧ (oldest + window ≤ now →
      (check_rate_limit max_calls window now (oldest :: rest)).1 = .admitted
        ∧ (check_rate_limit max_calls window now (oldest :: rest)).2
            = prune window now (oldest :: rest) ++ [now]
        ∧ now ∈ (check_rate_limit max_calls window now (oldest :: rest)).2) := by
  constructor
  · intro hall
    have hp : prune window now (oldest :: rest) = oldest :: rest := by
      unfold prune
      exact List.filter_eq_self.mpr fun a ha => decide_eq_true (hall a ha)
    have hcond : max_calls ≤ (prune window now (oldest :: rest)).length := by
      rw [hp, hlen]
    have hpos : 0 < oldest + window - now := by
      have := hall oldest (List.mem_cons_self _ _)
      omega
    refine ⟨?_, hpos⟩
    simp only [check_rate_limit]
    rw [if_pos hcond, hp]
    rfl
  · intro hexp
    have hpo : ¬ (decide (now - window < oldest) = true) := by
      simp; omega
    have hp : prune window now (oldest :: rest) = prune window now rest := by
      unfold prune
      exact List.filter_cons_of_neg hpo
    have hcond : ¬ max_calls ≤ (prune window now (oldest :: rest)).length := by
      have h1 : (prune window now rest).length ≤ rest.length :=
        List.length_filter_le _ _
      have h2 : rest.length + 1 = max_calls := by simpa using hlen
      rw [hp]; omega
    refine ⟨?_, ?_, ?_⟩
    · simp only [check_rate_limit]
      rw [if_neg hcond]
    · simp only [check_rate_limit]
      rw [if_neg hcond]
    · simp only [check_rate_limit]
      rw [if_neg hcond]
      simp

/-- Witness for C5: ten admitted timestamps `0..9`, window 60: a call at
`now = 30` is rejected with `retry_after = 30`; a call at `now = 70` (past
`0 + 60`) is admitted. -/
theorem rate_limit_window_correct_witness :
    ((check_rate_limit 10 60 30 [0, 1, 2, 3, 4, 5, 6, 7, 8, 9]).1
        = .rejected (0 + 60 - 30)
      ∧ (0 : Int) < 0 + 60 - 30)
    ∧ (check_rate_limit 10 60 70 [0, 1, 2, 3, 4, 5, 6, 7, 8, 9]).1 = .admitted := by
  have h := rate_limit_window_correct 10 60 30 0 [1, 2, 3, 4, 5, 6, 7, 8, 9]
    (by decide)
  have h' := rate_limit_window_correct 10 60 70 0 [1, 2, 3, 4, 5, 6, 7, 8, 9]
    (by decide)
  exact ⟨h.1 (by decide), (h'.2 (by decide)).1⟩

/-- C10: sortedness invariant of the rate limiter.  If a key's timestamp
list is sorted and the clock is non-decreasing (`now` is at least every
recorded entry), then the list produced by `check_rate_limit` is sorted, as
are the lists kept by `get_remaining`, `reset` and `cleanup`; consequently
the head used for `retry_after` is the oldest live entry. -/
theorem rate_limiter_timestamps_sorted (max_calls : Nat) (window now : Int)
    (calls : List Int) (m : List (String × List Int)) (u : String)
    (hs : calls.Sorted (· ≤ ·)) (hclock : ∀ t ∈ calls, t ≤ now)
    (hm : ∀ kv ∈ m, kv.2.Sorted (· ≤ ·)) :
    ((check_rate_limit max_calls window now calls).2.Sorted (· ≤ ·))
    ∧ ((get_remaining max_calls window now calls).2.Sorted (· ≤ ·))
    ∧ (∀ kv ∈ reset m u, kv.2.Sorted (· ≤ ·))
    ∧ (∀ kv ∈ cleanup window now m, kv.2.Sorted (· ≤ ·))
    ∧ (∀ oldest, (prune window now calls).head? = some oldest →
        ∀ t ∈ prune window now calls, oldest ≤ t) := by
  have hps : (prune window now calls).Sorted (· ≤ ·) := hs.filter _
  refine ⟨?_, hps, ?_, ?_, ?_⟩
  · simp only [check_rate_limit]
    split
    · split <;> exact hps
    · refine List.pairwise_append.mpr ⟨hps, List.pairwise_singleton _ _, ?_⟩
      intro a ha b hb
      rw [List.mem_singleton] at hb
      subst hb
      exact hclock a (List.mem_of_mem_filter ha)
  · intro kv hkv
    exact hm kv (List.mem_of_mem_filter hkv)
  · intro kv hkv
    have hkv' := List.mem_of_mem_filter hkv
    rw [List.mem_map] at hkv'
    obtain ⟨kv₀, hkv₀, rfl⟩ := hkv'
    exact (hm kv₀ hkv₀).filter _
  · intro oldest hh t ht
    obtain ⟨l, hl⟩ := List.head?_eq_some_iff.mp hh
    rw [hl] at ht hps
    rcases List.mem_cons.mp ht with rfl | ht'
    · exact le_refl _
    · exact List.rel_of_sorted_cons hps t ht'

/-- Witness for C10 at a sorted four-entry list and a one-key map. -/
theorem rate_limiter_timestamps_sorted_witness :
    ((check_rate_limit 10 60 10 [0, 5, 5, 9]).2.Sorted (· ≤ ·))
    ∧ ((get_remaining 10 60 10 [0, 5, 5, 9]).2.Sorted (· ≤ ·))
    ∧ (∀ kv ∈ reset [("a", [1, 2])] "a", kv.2.Sorted (· ≤ ·))
    ∧ (∀ kv ∈ cleanup 60 10 [("a", [1, 2])], kv.2.Sorted (· ≤ ·))
    ∧ (∀ oldest, (prune 60 10 [0, 5, 5, 9]).head? = some oldest →
        ∀ t ∈ prune 60 10 [0, 5, 5, 9], oldest ≤ t) :=
  rate_limiter_timestamps_sorted 10 60 10 [0, 5, 5, 9] [("a", [1, 2])] "a"
    (by decide) (by decide) (by decide)

/-- C3: with `max_retries = 3` and base backoff 5s, a transport failing on
attempts 1 and 2 and succeeding on attempt 3 yields overall success with
exactly 3 transport invocations and backoff delays `5` and `10`
(`base`, `2*base`); a transport failing on all 3 attempts yields
`success = false` and exactly one audit record of status `failed` carrying
the last transport error. -/
theorem retry_backoff_and_exhaustion (env env' : SendEnv)
    (e0 e1 f0 f1 f2 id : String)
    (h0 : env.transport 0 = .err e0) (h1 : env.transport 1 = .err e1)
    (h2 : env.transport 2 = .ok id) (ha : env.auditSent 2 = .ok ())
    (g0 : env'.transport 0 = .err f0) (g1 : env'.transport 1 = .err f1)
    (g2 : env'.transport 2 = .err f2) (gf : env'.auditFailed = .ok ()) :
    send_email_with_retry env 3
        = ⟨.ok ⟨true, some id, none, none⟩, 3, [5, 10], [.sent id]⟩
    ∧ send_email_with_retry env' 3
        = ⟨.ok ⟨false, none, some f2, none⟩, 3, [5, 10], [.failed f2]⟩ := by
  constructor
  · show sendGo env 3 [0, 1, 2] = _
    simp [sendGo, h0, h1, h2, ha]
  · show sendGo env' 3 [0, 1, 2] = _
    simp [sendGo, g0, g1, g2, gf]

/-- Witness for C3 at concrete environments. -/
theorem retry_backoff_and_exhaustion_witness :
    send_email_with_retry senv_twoFailures 3
        = ⟨.ok ⟨true, some "email_abc123", none, none⟩, 3, [5, 10],
            [.sent "email_abc123"]⟩
    ∧ send_email_with_retry senv_allFail 3
        = ⟨.ok ⟨false, none, some "boom2", none⟩, 3, [5, 10],
            [.failed "boom2"]⟩ :=
  retry_backoff_and_exhaustion senv_twoFailures senv_allFail
    "boom0" "boom1" "boom0" "boom1" "boom2" "email_abc123"
    rfl rfl rfl rfl rfl rfl rfl rfl

/-- C2 counterexample: with a transport that succeeds on its very first
attempt and an audit store whose `sent` insert always raises (the exhaustion
insert succeeding), `_send_email_with_retry` returns `success = false` and
invokes the transport 3 times — the claim's `success = true` with one
transport invocation is false. -/
theorem audit_failure_changes_result_cex :
    senv_auditSentDown.transport 0 = .ok "email_abc123"
    ∧ send_email_with_retry senv_auditSentDown 3
        = ⟨.ok ⟨false, none, some "db down", none⟩, 3, [5, 10],
            [.failed "db down"]⟩
    ∧ ¬ ((send_email_with_retry senv_auditSentDown 3).result
            = .ok ⟨true, some "email_abc123", none, none⟩
        ∧ (send_email_with_retry senv_auditSentDown 3).transportCalls = 1) := by
  have h : send_email_with_retry senv_auditSentDown 3
      = ⟨.ok ⟨false, none, some "db down", none⟩, 3, [5, 10],
          [.failed "db down"]⟩ := by
    show sendGo senv_auditSentDown 3 [0, 1, 2] = _
    simp [sendGo, senv_auditSentDown]
  refine ⟨rfl, h, ?_⟩
  rw [h]
  simp

/-- C2 (amended): an Audit Store append failure after a transport success is
caught by the retry loop as a failed attempt, so the transport is invoked
again; if the `sent` insert fails on every attempt (`max_retries = 3`, the
exhaustion insert succeeding) the dispatch returns `success = false`
carrying the audit error, with 3 transport invocations. -/
theorem audit_failure_retries_and_fails (env : SendEnv) (id e : String)
    (ht : ∀ n, env.transport n = .ok id)
    (ha : ∀ n, env.auditSent n = .error e)
    (hf : env.auditFailed = .ok ()) :
    send_email_with_retry env 3
      = ⟨.ok ⟨false, none, some e, none⟩, 3, [5, 10], [.failed e]⟩ := by
  show sendGo env 3 [0, 1, 2] = _
  simp [sendGo, ht 0, ht 1, ht 2, ha 0, ha 1, ha 2, hf]

/-- Witness for the amended C2. -/
theorem audit_failure_retries_and_fails_witness :
    send_email_with_retry senv_auditSentDown 3
      = ⟨.ok ⟨false, none, some "db down", none⟩, 3, [5, 10],
          [.failed "db down"]⟩ :=
  audit_failure_retries_and_fails senv_auditSentDown "email_abc123" "db down"
    (fun _ => rfl) (fun _ => rfl) rfl

/-- C4: a dispatch whose preference evaluation returns `allowed = false`
returns the structured rejection dict, invokes the transport zero times and
writes zero audit entries.  Each dispatch method is governed only by the
gate's decision for its own kind, so the three parts are independent
implications. -/
theorem preference_rejection_no_side_effects (gate : GateEnv) (blob : BlobEnv)
    (senv : SendEnv) (max_retries threshold : Nat)
    (user_id job_id error_message : String) (results : JobResults)
    (csv_data : Option (List Nat)) (current_usage limit : Int) :
    ((check_user_preferences gate .job_complete).1 = false →
      send_job_complete gate blob senv max_retries threshold user_id job_id
        results csv_data = .ok preferenceRejected)
    ∧ ((check_user_preferences gate .job_failed).1 = false →
      send_job_failed gate senv max_retries user_id job_id error_message
        = .ok preferenceRejected)
    ∧ ((check_user_preferences gate .quota_warning).1 = false →
      send_quota_warning gate senv max_retries user_id current_usage limit
        = .ok preferenceRejected)
    ∧ preferenceRejected.result.success = false
    ∧ preferenceRejected.result.reason
        = some "user_preferences_or_unverified_email"
    ∧ preferenceRejected.transportCalls = 0
    ∧ preferenceRejected.auditWrites = [] := by
  refine ⟨?_, ?_, ?_, rfl, rfl, rfl, rfl⟩
  · intro h1
    simp [send_job_complete, h1]
  · intro h2
    simp [send_job_failed, h2]
  · intro h3
    simp [send_quota_warning, h3]

/-- Witness for C4: a missing user rejects `job_complete` and
`quota_warning`; a user whose record sets only `email_job_failed = false`
(the kind-specific opt-out) rejects `job_failed` alone, and that dispatch
still returns the rejection dict with no transport or audit activity. -/
theorem preference_rejection_no_side_effects_witness :
    send_job_complete gate_absent blob_ok senv_ok 3 2000000 "u" "j"
        results_full none = .ok preferenceRejected
    ∧ send_job_failed gate_optout_job_failed senv_ok 3 "u" "j" "err"
        = .ok preferenceRejected
    ∧ send_quota_warning gate_absent senv_ok 3 "u" 50 10
        = .ok preferenceRejected := by
  refine ⟨?_, ?_, ?_⟩
  · exact (preference_rejection_no_side_effects gate_absent blob_ok senv_ok
      3 2000000 "u" "j" "err" results_full none 50 10).1 rfl
  · exact (preference_rejection_no_side_effects gate_optout_job_failed blob_ok
      senv_ok 3 2000000 "u" "j" "err" results_full none 50 10).2.1 rfl
  · exact (preference_rejection_no_side_effects gate_absent blob_ok senv_ok
      3 2000000 "u" "j" "err" results_full none 50 10).2.2.1 rfl

/-- C7: payload routing boundary.  A payload strictly below the threshold is
routed as an inline attachment named `results_JOB.csv`; one at or above the
threshold is uploaded to the blob store under the key
`USER/results/JOB.csv` and routed as the signed URL obtained for that key
with a 604800-second (7-day) expiry.  The constructor default threshold is
`2 * 1_000_000` bytes. -/
theorem payload_routing_boundary (blob : BlobEnv) (threshold : Nat)
    (user_id job_id : String) (csv_data : List Nat) (url : String) :
    (csv_data.length < threshold →
      route_csv blob threshold user_id job_id (some csv_data)
        = (.inline ("results_" ++ job_id ++ ".csv") csv_data.length, .attached))
    ∧ (threshold ≤ csv_data.length →
      blob.upload (storage_path user_id job_id) csv_data = .ok () →
      blob.createSignedUrl (storage_path user_id job_id) signed_url_expires_in
          = .ok url →
      route_csv blob threshold user_id job_id (some csv_data)
        = (.externalRef url, .link url))
    ∧ attachment_threshold_bytes 2 = 2000000
    ∧ signed_url_expires_in = 604800 := by
  refine ⟨?_, ?_, rfl, rfl⟩
  · intro h
    simp [route_csv, h]
  · intro h hu hsign
    simp [route_csv, Nat.not_lt.mpr h, upload_to_storage, hu, hsign]

/-- Witness for C7: 3 bytes route inline at the default threshold; a
2,000,000-byte payload routes to the signed URL of the blob store. -/
theorem payload_routing_boundary_witness :
    route_csv blob_ok 2000000 "u" "j" (some [1, 2, 3])
      = (.inline ("results_" ++ "j" ++ ".csv") 3, .attached)
    ∧ route_csv blob_ok 2000000 "u" "j" (some (List.replicate 2000000 0))
      = (.externalRef "https://signed.example/url",
          .link "https://signed.example/url") := by
  constructor
  · exact (payload_routing_boundary blob_ok 2000000 "u" "j" [1, 2, 3]
      "https://signed.example/url").1 (by norm_num)
  · exact (payload_routing_boundary blob_ok 2000000 "u" "j"
      (List.replicate 2000000 0) "https://signed.example/url").2.1
      (le_of_eq (List.length_replicate 2000000 0).symm) rfl rfl

/-- C8: degraded continuation.  For an oversized payload whose storage
upload or URL signing raises, `send_job_complete` does not abort: the send
proceeds with the "download link unavailable" section, the transport is
invoked, and on transport success the dispatch returns `success = true`
with one audit entry of status `sent`. -/
theorem degraded_storage_continues_send (gate : GateEnv) (blob : BlobEnv)
    (senv : SendEnv) (threshold : Nat) (user_id job_id : String)
    (tr s f p : Int) (csv_data : List Nat) (e id : String)
    (hgate : (check_user_preferences gate .job_complete).1 = true)
    (hsize : threshold ≤ csv_data.length)
    (hblob : upload_to_storage blob user_id job_id csv_data = .error e)
    (ht : senv.transport 0 = .ok id)
    (ha : senv.auditSent 0 = .ok ()) :
    send_job_complete gate blob senv 3 threshold user_id job_id
        ⟨some tr, some s, some f, some p⟩ (some csv_data)
      = .ok ⟨⟨true, some id, none, none⟩, .degraded, .unavailable, 1, [],
          [.sent id]⟩ := by
  have hroute : route_csv blob threshold user_id job_id (some csv_data)
      = (.degraded, .unavailable) := by
    simp [route_csv, Nat.not_lt.mpr hsize, hblob]
  have hsend : send_email_with_retry senv 3
      = ⟨.ok ⟨true, some id, none, none⟩, 1, [], [.sent id]⟩ := by
    show sendGo senv 3 [0, 1, 2] = _
    simp [sendGo, ht, ha]
  simp [send_job_complete, hgate, hroute, hsend, finishSend]

/-- Witness for C8: a 2-byte payload over threshold 2 with a raising blob
store still sends successfully. -/
theorem degraded_storage_continues_send_witness :
    send_job_complete gate_ok blob_down senv_ok 3 2 "u" "j"
        ⟨some 1, some 2, some 3, some 4⟩ (some [9, 9])
      = .ok ⟨⟨true, some "email_abc123", none, none⟩, .degraded, .unavailable,
          1, [], [.sent "email_abc123"]⟩ :=
  degraded_storage_continues_send gate_ok blob_down senv_ok 2 "u" "j"
    1 2 3 4 [9, 9] "storage down" "email_abc123"
    rfl (by decide) rfl rfl rfl

/-- C9 counterexample: a quota warning with `limit = 0` past an approving
gate is not rejected as a structured invalid-request error — the
`ZeroDivisionError` of `(current_usage / limit) * 100` escapes to the
caller, so the caller-visible outcome is an unhandled fault, not a
structured result. -/
theorem quota_zero_limit_raises_cex :
    send_quota_warning gate_ok senv_ok 3 "user-1" 50 0
      = .error "ZeroDivisionError: division by zero"
    ∧ ¬ ∃ r, send_quota_warning gate_ok senv_ok 3 "user-1" 50 0 = .ok r := by
  have h : send_quota_warning gate_ok senv_ok 3 "user-1" 50 0
      = .error "ZeroDivisionError: division by zero" := rfl
  refine ⟨h, ?_⟩
  rintro ⟨r, hr⟩
  rw [h] at hr
  exact Except.noConfusion hr

/-- C9 (amended): malformed requests are not validated.  After the gate
approves, a quota limit of 0 lets a raw `ZeroDivisionError` propagate, and a
`results` dict missing `total_rows` lets a raw `KeyError` propagate; neither
is converted into a structured invalid-request result. -/
theorem malformed_request_propagates_fault (gate : GateEnv) (blob : BlobEnv)
    (senv : SendEnv) (max_retries threshold : Nat) (user_id job_id : String)
    (current_usage : Int) (results : JobResults) (csv_data : Option (List Nat))
    (hq : (check_user_preferences gate .quota_warning).1 = true)
    (hj : (check_user_preferences gate .job_complete).1 = true)
    (hmiss : results.total_rows = none) :
    send_quota_warning gate senv max_retries user_id current_usage 0
      = .error "ZeroDivisionError: division by zero"
    ∧ send_job_complete gate blob senv max_retries threshold user_id job_id
        results csv_data = .error "KeyError" := by
  constructor
  · simp [send_quota_warning, hq]
  · rcases results with ⟨rt, rs, rf, rp⟩
    cases rt with
    | none => simp [send_job_complete, hj]
    | some v => exact absurd hmiss (by simp)

/-- Witness for the amended C9 at concrete environments. -/
theorem malformed_request_propagates_fault_witness :
    send_quota_warning gate_ok senv_ok 3 "u" 50 0
      = .error "ZeroDivisionError: division by zero"
    ∧ send_job_complete gate_ok blob_ok senv_ok 3 2000000 "u" "j"
        ⟨none, some 1, some 1, some 1⟩ none = .error "KeyError" :=
  malformed_request_propagates_fault gate_ok blob_ok senv_ok 3 2000000 "u" "j"
    50 ⟨none, some 1, some 1, some 1⟩ none rfl rfl rfl

/-- C1 (code evaluation for the wiring bug): the dispatch methods never
consult the rate limiter.  Even when a user's window already holds
`max_calls = 10` live entries — a state in which `check_rate_limit` does
not admit — `send_quota_warning` still invokes the transport and returns
success, with no rate-limit rejection and no `retry_after` in its result. -/
theorem dispatch_ignores_rate_limiter (gate : GateEnv) (senv : SendEnv)
    (window now : Int) (calls : List Int) (user_id : String)
    (current_usage limit : Int) (id : String)
    (hgate : (check_user_preferences gate .quota_warning).1 = true)
    (hlimit : ¬ limit = 0)
    (ht : senv.transport 0 = .ok id) (ha : senv.auditSent 0 = .ok ())
    (hfull : notification_rate_limiter_max_calls
        ≤ (prune window now calls).length) :
    (check_rate_limit notification_rate_limiter_max_calls window now calls).1
        ≠ .admitted
    ∧ send_quota_warning gate senv 3 user_id current_usage limit
        = .ok ⟨⟨true, some id, none, none⟩, .noAttachment, .empty, 1, [],
            [.sent id]⟩ := by
  constructor
  · simp only [check_rate_limit]
    rw [if_pos hfull]
    cases hh : (prune window now calls).head? <;> simp
  · have hsend : send_email_with_retry senv 3
        = ⟨.ok ⟨true, some id, none, none⟩, 1, [], [.sent id]⟩ := by
      show sendGo senv 3 [0, 1, 2] = _
      simp [sendGo, ht, ha]
    simp [send_quota_warning, hgate, hlimit, hsend, finishSend]

/-- Witness for C1's divergence: ten live entries `0..9` at `now = 30`
(window 60) reject in `check_rate_limit`, yet the dispatch sends. -/
theorem dispatch_ignores_rate_limiter_witness :
    (check_rate_limit notification_rate_limiter_max_calls 60 30
        [0, 1, 2, 3, 4, 5, 6, 7, 8, 9]).1 ≠ .admitted
    ∧ send_quota_warning gate_ok senv_ok 3 "u" 50 10
        = .ok ⟨⟨true, some "email_abc123", none, none⟩, .noAttachment, .empty,
            1, [], [.sent "email_abc123"]⟩ :=
  dispatch_ignores_rate_limiter gate_ok senv_ok 60 30
    [0, 1, 2, 3, 4, 5, 6, 7, 8, 9] "u" 50 10 "email_abc123"
    rfl (by decide) rfl rfl (by decide)

end GTM
